import Mathlib

/-!
# Verification of the status-dashboard normalization engine

Shallow embedding of `src/streamlit_app.py` (a status dashboard that polls
third-party status endpoints, normalizes them to a common
`(status, message, incidents)` triple, and aggregates an overall banner).

Modelling conventions:
* JSON payloads are modelled by the inductive `Json`.
* Python exceptions are modelled with `Except String`; a raised exception is
  `Except.error msg`.  Code that the Python source wraps in `try/except`
  catches the error; code outside a `try` propagates it.
* Python truthiness (`or` chains, `if x:`) is modelled by `Json.truthy`.
* `dict.get` on a non-dict raises `AttributeError`; this is modelled by
  `Json.pyGet` / `Json.pyGetD` returning `Except.error`.
* Timestamps (`datetime` values produced by `dateutil.parser.isoparse` and
  `datetime.now(timezone.utc)`) are modelled as integers on a common UTC time
  axis; comparison of parsed instants is integer comparison.
* Network fetches are modelled by a `World` record giving, for each endpoint,
  either the decoded payload (`Except.ok`) or a transport/decode failure
  (`Except.error`).
-/

/-- JSON values, as produced by `resp.json()`. -/
inductive Json where
  | null
  | bool (b : Bool)
  | num (n : Int)
  | str (s : String)
  | arr (elems : List Json)
  | obj (fields : List (String × Json))
deriving Repr

mutual

/-- Python `==` on JSON values (structural equality). -/
def Json.beq : Json → Json → Bool
  | .null, .null => true
  | .bool a, .bool c => a == c
  | .num a, .num c => a == c
  | .str a, .str c => a == c
  | .arr xs, .arr ys => Json.beqList xs ys
  | .obj fs, .obj gs => Json.beqFields fs gs
  | _, _ => false

/-- Elementwise `Json.beq` on lists. -/
def Json.beqList : List Json → List Json → Bool
  | [], [] => true
  | x :: xs, y :: ys => Json.beq x y && Json.beqList xs ys
  | _, _ => false

/-- Elementwise `Json.beq` on key-value lists. -/
def Json.beqFields : List (String × Json) → List (String × Json) → Bool
  | [], [] => true
  | (k, v) :: fs, (l, w) :: gs => k == l && Json.beq v w && Json.beqFields fs gs
  | _, _ => false

end

instance : BEq Json := ⟨Json.beq⟩

/-- Python truthiness of a JSON value (`if x:`, `x or y`):
`None`, `False`, `0`, `""`, `[]`, `{}` are falsy, everything else truthy. -/
def Json.truthy : Json → Bool
  | .null => false
  | .bool b => b
  | .num n => n != 0
  | .str s => !s.isEmpty
  | .arr es => !es.isEmpty
  | .obj fs => !fs.isEmpty

/-- Python `a or b`: `a` if `a` is truthy, else `b`. -/
def pyOr (a b : Json) : Json := if a.truthy then a else b

/-- Python `d.get(k)`: `None` when the key is missing; raises `AttributeError`
when the receiver is not a dict. -/
def Json.pyGet (j : Json) (k : String) : Except String Json :=
  match j with
  | .obj fs => .ok ((fs.lookup k).getD .null)
  | _ => .error "AttributeError: get"

/-- Python `d.get(k, default)`: the stored value (even if falsy) when the key is
present, the default otherwise; raises `AttributeError` on a non-dict. -/
def Json.pyGetD (j : Json) (k : String) (d : Json) : Except String Json :=
  match j with
  | .obj fs => .ok ((fs.lookup k).getD d)
  | _ => .error "AttributeError: get"

/-- Python `for _ in x`: lists iterate their elements, dicts their keys,
strings their characters; other values raise `TypeError`. -/
def pyIter : Json → Except String (List Json)
  | .arr es => .ok es
  | .obj fs => .ok (fs.map (fun kv => .str kv.1))
  | .str s => .ok (s.toList.map (fun c => .str (String.mk [c])))
  | _ => .error "TypeError: not iterable"

/-- Python whitespace, as stripped by `str.strip()`. -/
def isPySpace (c : Char) : Bool :=
  c = ' ' ∨ c = '\t' ∨ c = '\n' ∨ c = '\r' ∨ c = '\x0b' ∨ c = '\x0c'

/-- Python `str.strip()`: removes leading and trailing whitespace. -/
def pyStripStr (s : String) : String :=
  String.mk (((s.toList.dropWhile isPySpace).reverse.dropWhile isPySpace).reverse)

/-- Python `str.lower()` (ASCII case folding; the component keys and names
the source compares are ASCII). -/
def asciiLower (s : String) : String :=
  String.mk (s.toList.map (fun c =>
    if 'A' ≤ c ∧ c ≤ 'Z' then Char.ofNat (c.toNat + 32) else c))

/-- Python `x.strip()`: raises `AttributeError` unless `x` is a string. -/
def pyStrip : Json → Except String String
  | .str s => .ok (pyStripStr s)
  | _ => .error "AttributeError: strip"

/-- Python `x.lower()`: raises `AttributeError` unless `x` is a string. -/
def pyLower : Json → Except String String
  | .str s => .ok (asciiLower s)
  | _ => .error "AttributeError: lower"

/-- Python substring test `needle in hay` on strings. -/
def strIn (needle hay : String) : Bool :=
  decide (needle.toList <:+: hay.toList)

/-- Function `map_indicator` (source lines 41-46): canonical status of a raw
Statuspage indicator token. -/
def map_indicator (indicator : String) : String :=
  if indicator = "none" ∨ indicator = "operational" then "operational"
  else if indicator = "minor" ∨ indicator = "major" ∨ indicator = "partial_outage" then
    "degraded"
  else "outage"

/-- Function `map_indicator` applied to an arbitrary Python value: a non-string value
is equal to none of the membership-tested string tokens, so it falls through
to the final `return "outage"`. -/
def map_indicatorJ : Json → String
  | .str s => map_indicator s
  | _ => "outage"

/-- The inline status mapping of `parse_indicator_block` (source lines 27-32):
`"none" → operational`, `"minor"/"major" → degraded`, anything else
(any other string, or any non-string value, which equals no token) `→ outage`. -/
def indicator_block_status : Json → String
  | .str s =>
    if s = "none" then "operational"
    else if s = "minor" ∨ s = "major" then "degraded"
    else "outage"
  | _ => "outage"

/-- The per-incident name of the generic parser (source line 36):
`inc.get("name") or inc.get("shortlink") or "Unnamed incident"`
(the second `get` is only evaluated when the first result is falsy). -/
def incident_display_name (inc : Json) : Except String Json := do
  let n ← inc.pyGet "name"
  if n.truthy then
    pure n
  else do
    let sl ← inc.pyGet "shortlink"
    pure (pyOr sl (.str "Unnamed incident"))

/-- Function `parse_indicator_block` (source lines 23-38): generic Statuspage-style
parsing.  Reads `status.indicator` (default `"none"`) and
`status.description` (default `""`), maps the indicator inline, and collects
the display names of `incidents[]`.  Uncaught exceptions (`AttributeError`
on a non-dict, `TypeError` on a non-iterable) surface as `Except.error`. -/
def parse_indicator_block (data : Json) : Except String (String × Json × List Json) := do
  let st ← data.pyGetD "status" (.obj [])
  let ind ← st.pyGetD "indicator" (.str "none")
  let st2 ← data.pyGetD "status" (.obj [])
  let desc ← st2.pyGetD "description" (.str "")
  let incsJ ← data.pyGetD "incidents" (.arr [])
  let incs ← pyIter incsJ
  let names ← incs.mapM incident_display_name
  pure (indicator_block_status ind, desc, names)

/-!
## The region/time-filtered GCP parser (`check_gcp_component`, source lines 49-92)

The incident objects of the GCP `incidents.json` feed are modelled at the
level of the fields the code reads:
* `endTime` models `inc.get("end")` with `dateutil.parser.isoparse` already
  applied: `none` when the `end` key is absent, `some t` (an instant on the
  UTC axis, modelled as an integer) when present.
* `components` models `[c.get("name", "") for c in inc.get("components", [])]`.
* `external_desc` models `inc.get("external_desc", "")` (absent maps to `""`,
  which is also what the falsy check on line 75 sees).
* `updates` models `[u.get("text", "") for u in inc.get("updates", [])]`.
-/

/-- One GCP incident, at the level of the fields read by the source. -/
structure GcpIncident where
  endTime : Option Int
  components : List String
  external_desc : String
  updates : List String
deriving Repr, DecidableEq

/-- Retention predicate of the incident loop (source lines 60-73): the
incident is not skipped by the `continue` on line 64 (no `end`, or `end` not
strictly before `now`), its component-name list contains the target name
(line 73, exact string match via Python `in`), and `"North America"` occurs
as a substring of the external description or of some update text
(lines 70-72). -/
def gcpRetained (component_name : String) (now : Int) (inc : GcpIncident) : Bool :=
  (match inc.endTime with
   | some t => !decide (t < now)
   | none => true)
  && inc.components.contains component_name
  && (strIn "North America" inc.external_desc
      || inc.updates.any (fun u => strIn "North America" u))

/-- The text a retained incident appends (source line 75):
`inc.get("external_desc") or updates[-1] or "No details"`.
`updates[-1]` raises `IndexError` when the update list is empty (it is only
evaluated when the external description is falsy). -/
def gcpIncidentText (inc : GcpIncident) : Except String String :=
  if !inc.external_desc.isEmpty then .ok inc.external_desc
  else
    match inc.updates.getLast? with
    | some u => .ok (if !u.isEmpty then u else "No details")
    | none => .error "IndexError: list index out of range"

/-- The value `gcpIncidentText` yields whenever it does not raise. -/
def gcpTextValue (inc : GcpIncident) : String :=
  if !inc.external_desc.isEmpty then inc.external_desc
  else
    match inc.updates.getLast? with
    | some u => if !u.isEmpty then u else "No details"
    | none => "No details"

/-- The incident loop of `check_gcp_component` (source lines 59-76): walks
the incident list in order, skips ended incidents, and appends the display
text of every retained incident.  An `IndexError` raised by `updates[-1]`
propagates (it is caught only by the enclosing `try`). -/
def gcpActive (component_name : String) (now : Int) :
    List GcpIncident → Except String (List String)
  | [] => .ok []
  | inc :: rest =>
    if (match inc.endTime with
        | some t => decide (t < now)
        | none => false) then
      gcpActive component_name now rest
    else
      let region_ok := strIn "North America" inc.external_desc
        || inc.updates.any (fun u => strIn "North America" u)
      if inc.components.contains component_name && region_ok then do
        let t ← gcpIncidentText inc
        let ts ← gcpActive component_name now rest
        pure (t :: ts)
      else gcpActive component_name now rest

/-- Function `check_gcp_component` (source lines 49-92), with the fetch of
`incidents_url` abstracted into `fetched` (`Except.error` = transport or
decode failure; the shape-level decoding into `GcpIncident` is part of the
abstraction).  The whole body runs inside `try`; any exception becomes the
`("outage", "Error fetching GCP incidents: ...", [])` triple of line 92. -/
def check_gcp_component (component_name : String) (now : Int)
    (fetched : Except String (List GcpIncident)) : String × String × List String :=
  match (do
      let data ← fetched
      gcpActive component_name now data : Except String (List String)) with
  | .ok active_inc =>
    if !active_inc.isEmpty then
      ("outage",
       toString active_inc.length ++ " incident(s) affecting " ++ component_name
         ++ " in North America",
       active_inc)
    else
      ("operational", "No active North America incidents for " ++ component_name, [])
  | .error e => ("outage", "Error fetching GCP incidents: " ++ e, [])

/-!
## The component-keyed OpenAI parser (`check_openai_component`, source lines 95-148)
-/

/-- Source lines 111-112:
`data.get("components") or data.get("page", {}).get("components", [])`
(the `page` lookup only happens when the first operand is falsy). -/
def oaiComponents (data : Json) : Except String Json := do
  let c1 ← data.pyGet "components"
  if c1.truthy then pure c1
  else do
    let page ← data.pyGetD "page" (.obj [])
    page.pyGetD "components" (.arr [])

/-- Source lines 113-114:
`data.get("incidents") or data.get("page", {}).get("incidents", [])`. -/
def oaiIncidents (data : Json) : Except String Json := do
  let i1 ← data.pyGet "incidents"
  if i1.truthy then pure i1
  else do
    let page ← data.pyGetD "page" (.obj [])
    page.pyGetD "incidents" (.arr [])

/-- Source lines 117-120: the generator inside `next(...)`, which walks the
component list and stops at the first component whose name contains
`comp_key` case-insensitively (`comp_key.lower() in c.get("name", "").lower()`).
Elements past the first match are never evaluated. -/
def findComp (comp_key : String) : List Json → Except String (Option Json)
  | [] => .ok none
  | c :: rest => do
    let nm ← c.pyGetD "name" (.str "")
    let nmL ← pyLower nm
    if strIn (asciiLower comp_key) nmL then pure (some c)
    else findComp comp_key rest

/-- Source lines 128-137: the incident loop of the matched-component branch.
For each incident, reads `inc.get("components") or inc.get("affected_components") or []`,
collects the `id` of each affected component, and when the matched
component's id occurs among them appends `inc.get("name", "Unnamed incident")`. -/
def oaiActive (comp_id : Json) : List Json → Except String (List Json)
  | [] => .ok []
  | inc :: rest => do
    let a1 ← inc.pyGet "components"
    let affectedJ ←
      if a1.truthy then pure a1
      else do
        let a2 ← inc.pyGet "affected_components"
        pure (pyOr a2 (.arr []))
    let affected ← pyIter affectedJ
    let affected_ids ← affected.mapM (fun c => c.pyGet "id")
    if affected_ids.contains comp_id then do
      let nm ← inc.pyGetD "name" (.str "Unnamed incident")
      let tl ← oaiActive comp_id rest
      pure (nm :: tl)
    else oaiActive comp_id rest

/-- Source line 123: `comp.get("status") or comp.get("indicator", "none")`
(the second `get` only evaluated when the first result is falsy). -/
def oaiRawInd (comp : Json) : Except String Json := do
  let s ← comp.pyGet "status"
  if s.truthy then pure s else comp.pyGetD "indicator" (.str "none")

/-- Source lines 121-139: the branch taken when a matching component was
found (and is truthy, per Python `if comp:`). -/
def oaiCompBranch (comp : Json) (incidentsJ : Json) :
    Except String (String × String × List Json) := do
  let raw_ind ← oaiRawInd comp
  let status := map_indicatorJ raw_ind
  let descJ ← comp.pyGetD "description" (.str "")
  let stripped ← pyStrip descJ
  let desc := if stripped.isEmpty then "No description available" else stripped
  let comp_id ← comp.pyGet "id"
  let incs ← pyIter incidentsJ
  let active ← oaiActive comp_id incs
  pure (status, desc, active)

/-- Source line 142:
`data.get("status") or data.get("page", {}).get("status", {})`. -/
def oaiRootStatus (data : Json) : Except String Json := do
  let s ← data.pyGet "status"
  if s.truthy then pure s
  else do
    let page ← data.pyGetD "page" (.obj [])
    page.pyGetD "status" (.obj [])

/-- Source line 143:
`root_status.get("indicator") or root_status.get("status", "none")`. -/
def oaiGlobalInd (root_status : Json) : Except String Json := do
  let i ← root_status.pyGet "indicator"
  if i.truthy then pure i
  else root_status.pyGetD "status" (.str "none")

/-- Source lines 145-146:
`root_status.get("description", "").strip() or "No global description"`. -/
def oaiGlobalDesc (root_status : Json) : Except String String := do
  let d ← root_status.pyGetD "description" (.str "")
  let s ← pyStrip d
  pure (if s.isEmpty then "No global description" else s)

/-- Source lines 141-148: the global-status fallback branch (no matching
component): indicator read from the root status block, mapped via
`map_indicator`, description defaulted, incident list empty. -/
def oaiGlobal (data : Json) : Except String (String × String × List Json) := do
  let root_status ← oaiRootStatus data
  let raw_ind ← oaiGlobalInd root_status
  let status := map_indicatorJ raw_ind
  let desc ← oaiGlobalDesc root_status
  pure (status, desc, [])

/-- Source lines 110-148: the body of `check_openai_component` after a
successful fetch+decode.  This code is OUTSIDE the `try` of lines 101-108,
so any exception it raises (an `Except.error` here) propagates to the
caller. -/
def check_openai_body (comp_key : String) (data : Json) :
    Except String (String × String × List Json) := do
  let componentsJ ← oaiComponents data
  let incidentsJ ← oaiIncidents data
  let comps ← pyIter componentsJ
  let comp? ← findComp comp_key comps
  match comp? with
  | some comp => if comp.truthy then oaiCompBranch comp incidentsJ else oaiGlobal data
  | none => oaiGlobal data

/-- Function `check_openai_component` (source lines 95-148), with the fetch of
`proxy_url` abstracted into `fetched`.  The `try` of lines 101-108 catches
only fetch/decode failures and turns them into the outage triple of line
108; exceptions raised by the rest of the body are NOT caught. -/
def check_openai_component (comp_key : String) (fetched : Except String Json) :
    Except String (String × String × List Json) :=
  match fetched with
  | .error e => .ok ("outage", "Error fetching/parsing OpenAI status: " ++ e, [])
  | .ok data => check_openai_body comp_key data

/-!
## The refresh orchestrator (`refresh_all_services`, source lines 151-239)
and the overall banner (source lines 256-263)
-/

/-- How a configured service is checked (source lines 152-214): either a
bound checker closure (`check_gcp_component` with a component name, or
`check_openai_component` with a component key), or the legacy path that
fetches `api_url` and applies `parse_indicator_block`. -/
inductive ServiceKind where
  | gcp (component_name : String)
  | openai (comp_key : String)
  | legacy (api_url : String)
deriving Repr, DecidableEq

/-- One entry of the `services` dict of `refresh_all_services`. -/
structure Service where
  name : String
  url : String
  kind : ServiceKind
deriving Repr, DecidableEq

/-- The configured service list (source lines 152-214), in dict insertion
order. -/
def services : List Service := [
  ⟨"GCP: Cloud Run", "https://status.cloud.google.com/products/adnGEDEt9zWzs8uF1oKA/history",
    .gcp "Cloud Run"⟩,
  ⟨"GCP: Cloud Scheduler", "https://status.cloud.google.com/products/XXXscheduler/history",
    .gcp "Cloud Scheduler"⟩,
  ⟨"GCP: Firebase", "https://status.cloud.google.com/products/YYYfirebase/history",
    .gcp "Firebase"⟩,
  ⟨"GCP: Cloud Storage", "https://status.cloud.google.com/products/ZZZstorage/history",
    .gcp "Cloud Storage"⟩,
  ⟨"GCP: Compute Engine", "https://status.cloud.google.com/products/DixAowEQm45KgqXKP5tR/history",
    .gcp "Compute Engine"⟩,
  ⟨"GCP: IAM", "https://status.cloud.google.com/products/adnGEDEt9zWzs8uF1oKA/history",
    .gcp "Identity and Access Management"⟩,
  ⟨"OpenAI: Chat", "https://status.openai.com/", .openai "chat"⟩,
  ⟨"OpenAI: Embedding", "https://status.openai.com/", .openai "embedding"⟩,
  ⟨"Netlify", "https://www.netlifystatus.com/", .legacy "https://www.netlifystatus.com/api/v2/summary.json"⟩,
  ⟨"Cloudflare", "https://www.cloudflarestatus.com/", .legacy "https://www.cloudflarestatus.com/api/v2/status.json"⟩]

/-- An outbound HTTP GET as issued by the source, reduced to the data the
timeout claims need: the URL and the `timeout=` argument actually passed
(`none` when the call passes no timeout, i.e. `requests` waits without
bound). -/
structure FetchCall where
  url : String
  timeout : Option Nat
deriving Repr, DecidableEq

/-- The fetch call a service's pipeline issues during one refresh cycle:
* `.gcp` services: `requests.get(incidents_url, timeout=10)` (source line 55);
* `.openai` services: `requests.get(proxy_url, timeout=10, headers=...)`
  (source lines 102-104);
* `.legacy` services: `requests.get(cfg["api_url"], headers=...)` — no
  `timeout` argument at all (source lines 225-226). -/
def serviceFetchCall : ServiceKind → FetchCall
  | .gcp _ => ⟨"https://status.cloud.google.com/incidents.json", some 10⟩
  | .openai _ => ⟨"https://status.openai.com/proxy/status.openai.com", some 10⟩
  | .legacy api_url => ⟨api_url, none⟩

/-- The network environment of one refresh cycle: the outcome of fetching
(and decoding) each endpoint, plus the current UTC time. -/
structure World where
  gcp : Except String (List GcpIncident)
  openai : Except String Json
  legacy : String → Except String Json
  now : Int

/-- One stored entry of `st.session_state.services_data` (source lines
228-234), at the level the claims need (the wall-clock `last_checked` field
is not modelled). -/
structure Observation where
  status : String
  message : Json
  incidents : List Json
  url : String
deriving Repr

/-- The fetch+parse pipeline of one service inside the refresh loop (source
lines 221-227).  `Except.error` means an uncaught Python exception escapes
the loop body:
* the two checker families catch their own fetch failures, but
  `check_openai_component` can still raise on a shape-confused payload;
* the legacy branch has no `try` at all, so a transport error of
  `requests.get` or a decode error of `resp.json()` (both folded into
  `w.legacy url = .error`) propagates, as does any exception of
  `parse_indicator_block`. -/
def runService (w : World) : ServiceKind → Except String (String × Json × List Json)
  | .gcp component_name =>
    let r := check_gcp_component component_name w.now w.gcp
    .ok (r.1, .str r.2.1, r.2.2.map .str)
  | .openai comp_key => do
    let r ← check_openai_component comp_key w.openai
    pure (r.1, .str r.2.1, r.2.2)
  | .legacy api_url => do
    let data ← w.legacy api_url
    parse_indicator_block data

/-- The loop of `refresh_all_services` (source lines 219-236): services are
processed in configuration order; each successful pipeline stores its
observation in `services_data` before the next service starts; the first
uncaught exception aborts the loop (later services get no observation).
Returns the stored observations and the escaped exception, if any. -/
def refreshLoop (w : World) : List Service → List (String × Observation) × Option String
  | [] => ([], none)
  | svc :: rest =>
    match runService w svc.kind with
    | .error e => ([], some e)
    | .ok r =>
      ((svc.name, ⟨r.1, r.2.1, r.2.2, svc.url⟩) :: (refreshLoop w rest).1,
       (refreshLoop w rest).2)

/-- Function `refresh_all_services` (source lines 151-239) over the configured
service list. -/
def refresh_all_services (w : World) : List (String × Observation) × Option String :=
  refreshLoop w services

/-- The overall banner (source lines 256-263) as a function of the stored
statuses: `st.success` when all are `"operational"`, else `st.error` when
some is `"outage"`, else `st.warning`.  The three banner calls are encoded
by the canonical status they announce. -/
def overall_banner (statuses : List String) : String :=
  if statuses.all (fun s => s = "operational") then "operational"
  else if statuses.any (fun s => s = "outage") then "outage"
  else "degraded"

/-- The three canonical status strings of the normalized model. -/
def canonicalStatus (s : String) : Prop :=
  s = "operational" ∨ s = "degraded" ∨ s = "outage"

/-- A refresh-cycle environment in which every fetch succeeds with a benign
payload except the legacy Netlify summary fetch, which raises a transport
error. -/
def wNetlifyDown : World where
  gcp := .ok []
  openai := .ok (.obj [("status", .obj [("indicator", .str "none"),
    ("description", .str "All OK")])])
  legacy := fun url =>
    if url = "https://www.netlifystatus.com/api/v2/summary.json" then
      .error "ConnectionError: failed to establish a new connection"
    else
      .ok (.obj [("status", .obj [("indicator", .str "none"),
        ("description", .str "All OK")])])
  now := 0

/-- A refresh-cycle environment in which every fetch succeeds, but the two
legacy endpoints answer with an empty JSON object (no `status` block). -/
def wLegacyEmpty : World where
  gcp := .ok []
  openai := .ok (.obj [("status", .obj [("indicator", .str "none"),
    ("description", .str "All OK")])])
  legacy := fun _ => .ok (.obj [])
  now := 0

/-!
## Support lemmas
-/

/-- Binding an `Except` succeeds exactly when both stages succeed. -/
theorem exceptBind_ok_iff {a b' : Type} {e : Except String a} {f : a → Except String b'}
    {v : b'} :
    (e >>= f) = Except.ok v ↔ ∃ x, e = Except.ok x ∧ f x = Except.ok v := by
  cases e with
  | error msg => simp [Bind.bind, Except.bind]
  | ok x => simp [Bind.bind, Except.bind]

/-- A nonempty second operand keeps a string append nonempty. -/
theorem append_ne_empty_right (a b' : String) (hb : b' ≠ "") : a ++ b' ≠ "" := by
  intro h
  apply hb
  have hd : a.data ++ b'.data = ([] : List Char) := congrArg String.data h
  have h2 : b'.data = [] := (List.append_eq_nil.mp hd).2
  cases b' with
  | mk d => exact congrArg String.mk h2

/-- The marker `"North America"` is not a substring of the empty string. -/
theorem northAmerica_not_in_empty : strIn "North America" "" = false := by decide

/-- A region match forces a nonempty external description or a nonempty
update list, so the display text of a retained incident never raises. -/
theorem gcpIncidentText_of_region (inc : GcpIncident)
    (h : (strIn "North America" inc.external_desc
          || inc.updates.any (fun u => strIn "North America" u)) = true) :
    gcpIncidentText inc = Except.ok (gcpTextValue inc) := by
  unfold gcpIncidentText gcpTextValue
  cases hdesc : inc.external_desc.isEmpty with
  | false => simp [hdesc]
  | true =>
    have hdesc2 : inc.external_desc = "" := (String.isEmpty_iff _).mp hdesc
    rw [hdesc2, northAmerica_not_in_empty] at h
    simp only [Bool.false_or, List.any_eq_true] at h
    obtain ⟨u, hu, _⟩ := h
    have hne : inc.updates ≠ [] := by
      intro hnil
      rw [hnil] at hu
      exact absurd hu (List.not_mem_nil u)
    obtain ⟨v, hv⟩ : ∃ v, inc.updates.getLast? = some v := by
      cases hg : inc.updates.getLast? with
      | none => exact absurd (List.getLast?_eq_none_iff.mp hg) hne
      | some v => exact ⟨v, rfl⟩
    simp [hdesc, hv]

/-- The incident loop is declarative filtering: it succeeds on every input,
keeping exactly the incidents satisfying `gcpRetained`, each contributing
`gcpTextValue`. -/
theorem gcpActive_eq_filter (c : String) (now : Int) (incs : List GcpIncident) :
    gcpActive c now incs =
      Except.ok ((incs.filter (gcpRetained c now)).map gcpTextValue) := by
  induction incs with
  | nil => rfl
  | cons inc rest ih =>
    have hretdef : gcpRetained c now inc =
        ((match inc.endTime with
          | some t => !decide (t < now)
          | none => true)
         && inc.components.contains c
         && (strIn "North America" inc.external_desc
             || inc.updates.any (fun u => strIn "North America" u))) := rfl
    show (if (match inc.endTime with
              | some t => decide (t < now)
              | none => false) then
            gcpActive c now rest
          else
            if inc.components.contains c
                && (strIn "North America" inc.external_desc
                    || inc.updates.any (fun u => strIn "North America" u)) then do
              let t ← gcpIncidentText inc
              let ts ← gcpActive c now rest
              pure (t :: ts)
            else gcpActive c now rest) =
        Except.ok (((inc :: rest).filter (gcpRetained c now)).map gcpTextValue)
    rw [List.filter_cons]
    cases hend : inc.endTime with
    | some t =>
      by_cases hlt : t < now
      · have hret : gcpRetained c now inc = false := by
          rw [hretdef, hend]
          simp [hlt]
        rw [hret]
        simp [hlt, ih]
      · have hkeep : gcpRetained c now inc =
            (inc.components.contains c
             && (strIn "North America" inc.external_desc
                 || inc.updates.any (fun u => strIn "North America" u))) := by
          rw [hretdef, hend]
          simp [hlt]
        rw [hkeep]
        cases hcr : (inc.components.contains c
            && (strIn "North America" inc.external_desc
                || inc.updates.any (fun u => strIn "North America" u))) with
        | false => simp [hlt, ih]
        | true =>
          have hregion := ((Bool.and_eq_true _ _).mp hcr).2
          simp [hlt, gcpIncidentText_of_region inc hregion, ih, Bind.bind,
            Except.bind, pure, Except.pure]
    | none =>
      have hkeep : gcpRetained c now inc =
          (inc.components.contains c
           && (strIn "North America" inc.external_desc
               || inc.updates.any (fun u => strIn "North America" u))) := by
        rw [hretdef, hend]
        simp
      rw [hkeep]
      cases hcr : (inc.components.contains c
          && (strIn "North America" inc.external_desc
              || inc.updates.any (fun u => strIn "North America" u))) with
      | false => simp [ih]
      | true =>
        have hregion := ((Bool.and_eq_true _ _).mp hcr).2
        simp [gcpIncidentText_of_region inc hregion, ih, Bind.bind,
          Except.bind, pure, Except.pure]

/-- A string with `isEmpty = false` is not the empty string. -/
theorem ne_empty_of_isEmpty_false {s : String} (h : s.isEmpty = false) : s ≠ "" := by
  intro he
  rw [he] at h
  exact absurd h (by decide)

/-- C5: the region/time-filtered parser retains an incident if and only if
its `end` timestamp is absent or not strictly earlier than `now`, the target
component name occurs by exact string match in its component-name list, and
`"North America"` occurs as a case-sensitive substring of its external
description or of at least one update text.  The incident loop `gcpActive`
keeps exactly the incidents satisfying `gcpRetained`, and `gcpRetained` is
exactly that three-way conjunction. -/
theorem spec_c5 (c : String) (now : Int) (incs : List GcpIncident) :
    gcpActive c now incs =
      Except.ok ((incs.filter (gcpRetained c now)).map gcpTextValue)
    ∧ ∀ inc : GcpIncident, gcpRetained c now inc = true ↔
        ((∀ t, inc.endTime = some t → ¬ t < now)
         ∧ c ∈ inc.components
         ∧ ("North America".toList <:+: inc.external_desc.toList
            ∨ ∃ u ∈ inc.updates, "North America".toList <:+: u.toList)) := by
  refine ⟨gcpActive_eq_filter c now incs, fun inc => ?_⟩
  unfold gcpRetained
  cases hend : inc.endTime with
  | some t =>
    simp only [hend, Bool.and_eq_true, Bool.or_eq_true, List.any_eq_true, strIn,
      decide_eq_true_eq, Bool.not_eq_true', decide_eq_false_iff_not, List.elem_iff,
      Option.some.injEq]
    constructor
    · rintro ⟨⟨h1, h2⟩, h3⟩
      exact ⟨fun t2 ht2 => ht2 ▸ h1, h2, h3⟩
    · rintro ⟨h1, h2, h3⟩
      exact ⟨⟨h1 t rfl, h2⟩, h3⟩
  | none =>
    simp only [hend, Bool.true_and, Bool.and_eq_true, Bool.or_eq_true, List.any_eq_true,
      strIn, decide_eq_true_eq, List.elem_iff]
    constructor
    · rintro ⟨h2, h3⟩
      exact ⟨fun t2 ht2 => Option.noConfusion ht2, h2, h3⟩
    · rintro ⟨_, h2, h3⟩
      exact ⟨h2, h3⟩

/-- Witness for C5 at concrete inputs: an incident ended in the past is
dropped, one with no `end` and matching component/region is kept. -/
theorem spec_c5_witness :
    gcpActive "Cloud Run" 5
      [⟨some 3, ["Cloud Run"], "North America issue", []⟩,
       ⟨none, ["Cloud Run"], "North America issue", []⟩] =
      Except.ok ["North America issue"]
    ∧ gcpRetained "Cloud Run" 5 ⟨none, ["Cloud Run"], "North America issue", []⟩ = true := by
  constructor
  · exact (spec_c5 "Cloud Run" 5
      [⟨some 3, ["Cloud Run"], "North America issue", []⟩,
       ⟨none, ["Cloud Run"], "North America issue", []⟩]).1.trans (by rfl)
  · exact ((spec_c5 "Cloud Run" 5 []).2 ⟨none, ["Cloud Run"], "North America issue", []⟩).mpr
      ⟨fun t ht => Option.noConfusion ht, by simp, Or.inl (by decide)⟩

/-- C6: every retained incident contributes its external description when
nonempty, otherwise its last update text when that is nonempty, otherwise
the literal `"No details"`; the fallback chain yields a value for every
retained incident.  An incident with an empty description and an empty
update list can never be retained (no region marker can occur anywhere), so
the chain never reaches the case where `updates[-1]` would raise. -/
theorem spec_c6 (c : String) (now : Int) (inc : GcpIncident) :
    (gcpRetained c now inc = true →
      ∃ t, gcpIncidentText inc = Except.ok t
        ∧ ((inc.external_desc ≠ "" ∧ t = inc.external_desc)
           ∨ (inc.external_desc = ""
              ∧ ∃ u, inc.updates.getLast? = some u ∧ u ≠ "" ∧ t = u)
           ∨ (inc.external_desc = ""
              ∧ ∃ u, inc.updates.getLast? = some u ∧ u = "" ∧ t = "No details")))
    ∧ (inc.external_desc = "" → inc.updates = [] → gcpRetained c now inc = false) := by
  constructor
  · intro hret
    have hregion : (strIn "North America" inc.external_desc
        || inc.updates.any (fun u => strIn "North America" u)) = true :=
      ((Bool.and_eq_true _ _).mp hret).2
    refine ⟨gcpTextValue inc, gcpIncidentText_of_region inc hregion, ?_⟩
    unfold gcpTextValue
    cases hdesc : inc.external_desc.isEmpty with
    | false =>
      left
      exact ⟨ne_empty_of_isEmpty_false hdesc, by simp [hdesc]⟩
    | true =>
      have hdesc2 : inc.external_desc = "" := (String.isEmpty_iff _).mp hdesc
      rw [hdesc2, northAmerica_not_in_empty] at hregion
      simp only [Bool.false_or, List.any_eq_true] at hregion
      obtain ⟨u, hu, _⟩ := hregion
      have hne : inc.updates ≠ [] := by
        intro hnil
        rw [hnil] at hu
        exact absurd hu (List.not_mem_nil u)
      obtain ⟨v, hv⟩ : ∃ v, inc.updates.getLast? = some v := by
        cases hg : inc.updates.getLast? with
        | none => exact absurd (List.getLast?_eq_none_iff.mp hg) hne
        | some v => exact ⟨v, rfl⟩
      cases hvemp : v.isEmpty with
      | false =>
        right; left
        exact ⟨hdesc2, v, hv, ne_empty_of_isEmpty_false hvemp, by simp [hdesc, hv, hvemp]⟩
      | true =>
        right; right
        exact ⟨hdesc2, v, hv, (String.isEmpty_iff _).mp hvemp, by simp [hdesc, hv, hvemp]⟩
  · intro hdesc hupd
    unfold gcpRetained
    rw [hdesc, hupd, northAmerica_not_in_empty]
    simp

/-- Witness for C6 at a concrete retained incident whose description is
empty: the text falls back to the last update. -/
theorem spec_c6_witness :
    ∃ t, gcpIncidentText (⟨none, ["X"], "", ["North America outage"]⟩ : GcpIncident) =
        Except.ok t
      ∧ (((⟨none, ["X"], "", ["North America outage"]⟩ : GcpIncident).external_desc ≠ ""
          ∧ t = (⟨none, ["X"], "", ["North America outage"]⟩ : GcpIncident).external_desc)
         ∨ ((⟨none, ["X"], "", ["North America outage"]⟩ : GcpIncident).external_desc = ""
            ∧ ∃ u, (⟨none, ["X"], "", ["North America outage"]⟩ : GcpIncident).updates.getLast? = some u
              ∧ u ≠ "" ∧ t = u)
         ∨ ((⟨none, ["X"], "", ["North America outage"]⟩ : GcpIncident).external_desc = ""
            ∧ ∃ u, (⟨none, ["X"], "", ["North America outage"]⟩ : GcpIncident).updates.getLast? = some u
              ∧ u = "" ∧ t = "No details")) :=
  (spec_c6 "X" 0 ⟨none, ["X"], "", ["North America outage"]⟩).1 (by rfl)

/-- C3: `map_indicator` maps `"none"` and `"operational"` to
`"operational"`; `"minor"`, `"major"` and `"partial_outage"` to
`"degraded"`; every other token to `"outage"`.  The component-keyed parser
defaults an absent indicator to the token `"none"`, so a matched component
with neither a `status` nor an `indicator` field comes out operational. -/
theorem spec_c3 :
    map_indicator "none" = "operational"
    ∧ map_indicator "operational" = "operational"
    ∧ map_indicator "minor" = "degraded"
    ∧ map_indicator "major" = "degraded"
    ∧ map_indicator "partial_outage" = "degraded"
    ∧ (∀ s : String,
        s ∉ (["none", "operational", "minor", "major", "partial_outage"] : List String) →
        map_indicator s = "outage")
    ∧ check_openai_body "api" (.obj [("components", .arr [.obj [("name", .str "API")]])])
        = .ok ("operational", "No description available", []) := by
  refine ⟨rfl, rfl, rfl, rfl, rfl, ?_, rfl⟩
  intro s hs
  have h1 : ¬ (s = "none" ∨ s = "operational") := by
    rintro (h | h) <;> subst h <;> simp at hs
  have h2 : ¬ (s = "minor" ∨ s = "major" ∨ s = "partial_outage") := by
    rintro (h | h | h) <;> subst h <;> simp at hs
  unfold map_indicator
  rw [if_neg h1, if_neg h2]

/-- Witness for C3: an unmapped token falls through to `"outage"`. -/
theorem spec_c3_witness : map_indicator "critical" = "outage" :=
  spec_c3.2.2.2.2.2.1 "critical" (by decide)

/-- Counterexample for C4: on the raw indicator `"operational"` the generic
parser's inline mapping yields `"outage"` while `map_indicator` yields
`"operational"`, so the two are NOT equal as functions of the raw
indicator. -/
theorem spec_c4_cex :
    parse_indicator_block (.obj [("status", .obj [("indicator", .str "operational")])]) =
      .ok ("outage", .str "", [])
    ∧ map_indicator "operational" = "operational"
    ∧ indicator_block_status (.str "operational") ≠ map_indicatorJ (.str "operational") :=
  ⟨rfl, rfl, by decide⟩

/-- C4 (amended): the inline mapping of `parse_indicator_block` agrees with
`map_indicator` on every raw indicator value EXCEPT the two string tokens
`"operational"` (parser: outage, mapper: operational) and `"partial_outage"`
(parser: outage, mapper: degraded); an absent indicator is read as `"none"`
by both and maps to operational. -/
theorem spec_c4 :
    (∀ j : Json, j ≠ .str "operational" → j ≠ .str "partial_outage" →
      indicator_block_status j = map_indicatorJ j)
    ∧ indicator_block_status (.str "operational") = "outage"
    ∧ map_indicatorJ (.str "operational") = "operational"
    ∧ indicator_block_status (.str "partial_outage") = "outage"
    ∧ map_indicatorJ (.str "partial_outage") = "degraded"
    ∧ indicator_block_status (.str "none") = "operational" := by
  refine ⟨?_, rfl, rfl, rfl, rfl, rfl⟩
  intro j hop hpo
  cases j with
  | null => rfl
  | bool b => rfl
  | num n => rfl
  | arr es => rfl
  | obj fs => rfl
  | str s =>
    have hop2 : s ≠ "operational" := fun h => hop (by rw [h])
    have hpo2 : s ≠ "partial_outage" := fun h => hpo (by rw [h])
    show (if s = "none" then "operational"
          else if s = "minor" ∨ s = "major" then "degraded"
          else "outage") = map_indicator s
    unfold map_indicator
    by_cases h1 : s = "none"
    · simp [h1]
    · by_cases h2 : s = "minor"
      · subst h2
        rfl
      · by_cases h3 : s = "major"
        · subst h3
          rfl
        · have h4 : ¬ (s = "minor" ∨ s = "major") := by
            rintro (h | h)
            · exact h2 h
            · exact h3 h
          have h5 : ¬ (s = "none" ∨ s = "operational") := by
            rintro (h | h)
            · exact h1 h
            · exact hop2 h
          have h6 : ¬ (s = "minor" ∨ s = "major" ∨ s = "partial_outage") := by
            rintro (h | h | h)
            · exact h2 h
            · exact h3 h
            · exact hpo2 h
          rw [if_neg h1, if_neg h4, if_neg h5, if_neg h6]

/-- Witness for C4 (amended) at the token `"minor"`, where both mappings
agree. -/
theorem spec_c4_witness :
    indicator_block_status (.str "minor") = map_indicatorJ (.str "minor") :=
  spec_c4.1 (.str "minor") (by simp) (by simp)

/-- A nonempty list has `isEmpty = false`. -/
theorem isEmpty_false_of_ne_nil {a : Type} {l : List a} (h : l ≠ []) :
    l.isEmpty = false := by
  cases hl : l.isEmpty
  · rfl
  · exact absurd (List.isEmpty_iff.mp hl) h

/-- C7: the component-keyed parser reads components from the top-level
`components` key, falling back to `page.components` when that is empty or
missing (same pattern for incidents); and when no component's name contains
the key as a case-insensitive substring it returns the global status block
(`status` top-level or else `page.status`), with the indicator read from
`indicator` or else `status`, mapped via `map_indicator`, the description
defaulting to `"No global description"` when absent or blank, and an empty
incident list. -/
theorem spec_c7 :
    (∀ (fs : List (String × Json)) (cs : List Json),
      fs.lookup "components" = some (.arr cs) → cs ≠ [] →
      oaiComponents (.obj fs) = .ok (.arr cs))
    ∧ (∀ (fs ps : List (String × Json)),
      (fs.lookup "components" = none ∨ fs.lookup "components" = some (.arr [])) →
      fs.lookup "page" = some (.obj ps) →
      oaiComponents (.obj fs) = .ok ((ps.lookup "components").getD (.arr [])))
    ∧ (∀ (fs : List (String × Json)) (il : List Json),
      fs.lookup "incidents" = some (.arr il) → il ≠ [] →
      oaiIncidents (.obj fs) = .ok (.arr il))
    ∧ (∀ (fs ps : List (String × Json)),
      (fs.lookup "incidents" = none ∨ fs.lookup "incidents" = some (.arr [])) →
      fs.lookup "page" = some (.obj ps) →
      oaiIncidents (.obj fs) = .ok ((ps.lookup "incidents").getD (.arr [])))
    ∧ (∀ (key : String) (data : Json) (cs : List Json) (ij : Json),
      oaiComponents data = .ok (.arr cs) →
      oaiIncidents data = .ok ij →
      findComp key cs = .ok none →
      check_openai_body key data = oaiGlobal data)
    ∧ (∀ (key : String) (cs : List Json),
      (∀ c ∈ cs, ∃ (cfs : List (String × Json)) (nm : String),
        c = .obj cfs ∧ (cfs.lookup "name").getD (.str "") = .str nm
        ∧ strIn (asciiLower key) (asciiLower nm) = false) →
      findComp key cs = .ok none)
    ∧ (∀ (fs : List (String × Json)) (v : Json),
      fs.lookup "status" = some v → v.truthy = true →
      oaiRootStatus (.obj fs) = .ok v)
    ∧ (∀ (fs ps : List (String × Json)),
      ((fs.lookup "status").getD .null).truthy = false →
      fs.lookup "page" = some (.obj ps) →
      oaiRootStatus (.obj fs) = .ok ((ps.lookup "status").getD (.obj [])))
    ∧ (∀ (rs : List (String × Json)) (v : Json),
      rs.lookup "indicator" = some v → v.truthy = true →
      oaiGlobalInd (.obj rs) = .ok v)
    ∧ (∀ (rs : List (String × Json)),
      ((rs.lookup "indicator").getD .null).truthy = false →
      oaiGlobalInd (.obj rs) = .ok ((rs.lookup "status").getD (.str "none")))
    ∧ (∀ (rs : List (String × Json)),
      (rs.lookup "description" = none
       ∨ ∃ s, rs.lookup "description" = some (.str s) ∧ pyStripStr s = "") →
      oaiGlobalDesc (.obj rs) = .ok "No global description")
    ∧ (∀ (data root_status ind : Json) (d : String),
      oaiRootStatus data = .ok root_status →
      oaiGlobalInd root_status = .ok ind →
      oaiGlobalDesc root_status = .ok d →
      oaiGlobal data = .ok (map_indicatorJ ind, d, [])) := by
  refine ⟨?_, ?_, ?_, ?_, ?_, ?_, ?_, ?_, ?_, ?_, ?_, ?_⟩
  · intro fs cs h1 h2
    unfold oaiComponents
    simp [Json.pyGet, h1, Json.truthy, isEmpty_false_of_ne_nil h2, Bind.bind, Except.bind,
      pure, Except.pure]
  · intro fs ps h1 h2
    unfold oaiComponents
    cases h1 with
    | inl h =>
      simp [Json.pyGet, Json.pyGetD, h, h2, Json.truthy, Bind.bind, Except.bind,
        pure, Except.pure]
    | inr h =>
      simp [Json.pyGet, Json.pyGetD, h, h2, Json.truthy, Bind.bind, Except.bind,
        pure, Except.pure]
  · intro fs il h1 h2
    unfold oaiIncidents
    simp [Json.pyGet, h1, Json.truthy, isEmpty_false_of_ne_nil h2, Bind.bind, Except.bind,
      pure, Except.pure]
  · intro fs ps h1 h2
    unfold oaiIncidents
    cases h1 with
    | inl h =>
      simp [Json.pyGet, Json.pyGetD, h, h2, Json.truthy, Bind.bind, Except.bind,
        pure, Except.pure]
    | inr h =>
      simp [Json.pyGet, Json.pyGetD, h, h2, Json.truthy, Bind.bind, Except.bind,
        pure, Except.pure]
  · intro key data cs ij h1 h2 h3
    unfold check_openai_body
    rw [h1]
    simp only [Bind.bind, Except.bind]
    rw [h2]
    show (pyIter (.arr cs) >>= fun comps => _) = _
    simp only [pyIter, Bind.bind, Except.bind]
    rw [h3]
  · intro key cs h
    induction cs with
    | nil => rfl
    | cons c rest ih =>
      obtain ⟨cfs, nm, hc, hnm, hni⟩ := h c (List.mem_cons_self c rest)
      subst hc
      unfold findComp
      simp [Json.pyGetD, hnm, pyLower, hni, Bind.bind, Except.bind]
      exact ih (fun c2 hc2 => h c2 (List.mem_cons_of_mem _ hc2))
  · intro fs v h1 h2
    unfold oaiRootStatus
    simp [Json.pyGet, h1, h2, Bind.bind, Except.bind, pure, Except.pure]
  · intro fs ps h1 h2
    unfold oaiRootStatus
    simp [Json.pyGet, Json.pyGetD, h1, h2, Bind.bind, Except.bind, pure, Except.pure]
  · intro rs v h1 h2
    unfold oaiGlobalInd
    simp [Json.pyGet, h1, h2, Bind.bind, Except.bind, pure, Except.pure]
  · intro rs h1
    unfold oaiGlobalInd
    simp [Json.pyGet, Json.pyGetD, h1, Bind.bind, Except.bind, pure, Except.pure]
  · intro rs h1
    unfold oaiGlobalDesc
    cases h1 with
    | inl h =>
      simp [Json.pyGetD, h, pyStrip, pyStripStr, Bind.bind, Except.bind, pure, Except.pure]
      decide
    | inr h =>
      obtain ⟨s, hs, hstrip⟩ := h
      simp [Json.pyGetD, hs, pyStrip, hstrip, Bind.bind, Except.bind, pure, Except.pure]
      decide
  · intro data root_status ind d h1 h2 h3
    unfold oaiGlobal
    rw [h1]
    simp only [Bind.bind, Except.bind]
    rw [h2]
    rw [h3]
    rfl

/-- Witness for C7 at concrete payloads: top-level components win when
nonempty; `page.components` is used when `components` is missing; the
global indicator falls back to the `status` field; the global description
defaults when absent; an empty component list sends the parser to the
global branch. -/
theorem spec_c7_witness :
    oaiComponents (.obj [("components", .arr [.null])]) = .ok (.arr [.null])
    ∧ oaiComponents (.obj [("page", .obj [("components", .arr [.bool true])])]) =
        .ok (.arr [.bool true])
    ∧ oaiGlobalInd (.obj [("status", .str "major")]) = .ok (.str "major")
    ∧ oaiGlobalDesc (.obj []) = .ok "No global description"
    ∧ check_openai_body "chat" (.obj []) = oaiGlobal (.obj [])
    ∧ findComp "chat" [] = .ok none := by
  refine ⟨?_, ?_, ?_, ?_, ?_, ?_⟩
  · exact spec_c7.1 [("components", .arr [.null])] [.null] rfl (by simp)
  · exact (spec_c7.2.1 [("page", .obj [("components", .arr [.bool true])])]
      [("components", .arr [.bool true])] (Or.inl rfl) rfl).trans rfl
  · exact (spec_c7.2.2.2.2.2.2.2.2.2.1 [("status", .str "major")] rfl).trans rfl
  · exact spec_c7.2.2.2.2.2.2.2.2.2.2.1 [] (Or.inl rfl)
  · exact spec_c7.2.2.2.2.1 "chat" (.obj []) [] (.arr []) rfl rfl rfl
  · exact spec_c7.2.2.2.2.2.1 "chat" []
      (fun c hc => absurd hc (List.not_mem_nil c))

/-- A nonempty first operand keeps a string append nonempty. -/
theorem append_ne_empty_left (a b2 : String) (ha : a ≠ "") : a ++ b2 ≠ "" := by
  intro h
  apply ha
  have hd : a.data ++ b2.data = ([] : List Char) := congrArg String.data h
  have h2 : a.data = [] := (List.append_eq_nil.mp hd).1
  cases a with
  | mk d => exact congrArg String.mk h2

/-- Every value of `map_indicator` is canonical. -/
theorem map_indicator_canonical (s : String) : canonicalStatus (map_indicator s) := by
  unfold map_indicator
  split
  · exact Or.inl rfl
  · split
    · exact Or.inr (Or.inl rfl)
    · exact Or.inr (Or.inr rfl)

/-- Every value of `map_indicatorJ` is canonical. -/
theorem map_indicatorJ_canonical (j : Json) : canonicalStatus (map_indicatorJ j) := by
  cases j
  case str s => exact map_indicator_canonical s
  all_goals exact Or.inr (Or.inr rfl)

/-- Every value of the generic parser's inline mapping is canonical. -/
theorem indicator_block_status_canonical (j : Json) :
    canonicalStatus (indicator_block_status j) := by
  cases j
  case str s =>
    show canonicalStatus
      (if s = "none" then "operational"
       else if s = "minor" ∨ s = "major" then "degraded"
       else "outage")
    split
    · exact Or.inl rfl
    · split
      · exact Or.inr (Or.inl rfl)
      · exact Or.inr (Or.inr rfl)
  all_goals exact Or.inr (Or.inr rfl)

/-- A successful run of the generic parser returns the inline mapping of the
extracted indicator; in particular its status is canonical (and its message
is the raw description, unconstrained). -/
theorem parse_indicator_block_ok {data : Json} {r : String × Json × List Json}
    (h : parse_indicator_block data = Except.ok r) : canonicalStatus r.1 := by
  unfold parse_indicator_block at h
  obtain ⟨st, h1, h⟩ := exceptBind_ok_iff.mp h
  obtain ⟨ind, h2, h⟩ := exceptBind_ok_iff.mp h
  obtain ⟨st2, h3, h⟩ := exceptBind_ok_iff.mp h
  obtain ⟨desc, h4, h⟩ := exceptBind_ok_iff.mp h
  obtain ⟨incsJ, h5, h⟩ := exceptBind_ok_iff.mp h
  obtain ⟨incs, h6, h⟩ := exceptBind_ok_iff.mp h
  obtain ⟨names, h7, h⟩ := exceptBind_ok_iff.mp h
  have hr : r = (indicator_block_status ind, desc, names) := by
    simpa [pure, Except.pure] using h.symm
  rw [hr]
  exact indicator_block_status_canonical ind

/-- A successful run of the matched-component branch has a canonical status
and a nonempty message. -/
theorem oaiCompBranch_ok {comp incidentsJ : Json} {r : String × String × List Json}
    (h : oaiCompBranch comp incidentsJ = Except.ok r) :
    canonicalStatus r.1 ∧ r.2.1 ≠ "" := by
  unfold oaiCompBranch at h
  obtain ⟨raw, h2, h⟩ := exceptBind_ok_iff.mp h
  obtain ⟨descJ, h3, h⟩ := exceptBind_ok_iff.mp h
  obtain ⟨stripped, h4, h⟩ := exceptBind_ok_iff.mp h
  obtain ⟨comp_id, h5, h⟩ := exceptBind_ok_iff.mp h
  obtain ⟨incs, h6, h⟩ := exceptBind_ok_iff.mp h
  obtain ⟨active, h7, h⟩ := exceptBind_ok_iff.mp h
  have hr : r = (map_indicatorJ raw,
      (if stripped.isEmpty then "No description available" else stripped), active) := by
    simpa [pure, Except.pure] using h.symm
  rw [hr]
  refine ⟨map_indicatorJ_canonical raw, ?_⟩
  cases he : stripped.isEmpty with
  | true =>
    rw [if_pos rfl]
    exact (by decide : "No description available" ≠ "")
  | false =>
    rw [if_neg (by simp)]
    exact ne_empty_of_isEmpty_false he

/-- A successful run of the global branch has a canonical status, a nonempty
message, and an empty incident list. -/
theorem oaiGlobal_ok {data : Json} {r : String × String × List Json}
    (h : oaiGlobal data = Except.ok r) :
    canonicalStatus r.1 ∧ r.2.1 ≠ "" ∧ r.2.2 = [] := by
  unfold oaiGlobal at h
  obtain ⟨rs, h1, h⟩ := exceptBind_ok_iff.mp h
  obtain ⟨ind, h2, h⟩ := exceptBind_ok_iff.mp h
  obtain ⟨d, h3, h⟩ := exceptBind_ok_iff.mp h
  have hr : r = (map_indicatorJ ind, d, []) := by
    simpa [pure, Except.pure] using h.symm
  rw [hr]
  refine ⟨map_indicatorJ_canonical ind, ?_, rfl⟩
  unfold oaiGlobalDesc at h3
  obtain ⟨dj, h4, h3⟩ := exceptBind_ok_iff.mp h3
  obtain ⟨s, h5, h3⟩ := exceptBind_ok_iff.mp h3
  have hd : d = if s.isEmpty then "No global description" else s := by
    simpa [pure, Except.pure] using h3.symm
  rw [hd]
  cases he : s.isEmpty with
  | true =>
    rw [if_pos rfl]
    exact (by decide : "No global description" ≠ "")
  | false =>
    rw [if_neg (by simp)]
    exact ne_empty_of_isEmpty_false he

/-- A successful run of the component-keyed parser body has a canonical
status and a nonempty message. -/
theorem check_openai_body_ok {key : String} {data : Json} {r : String × String × List Json}
    (h : check_openai_body key data = Except.ok r) :
    canonicalStatus r.1 ∧ r.2.1 ≠ "" := by
  unfold check_openai_body at h
  obtain ⟨cJ, h1, h⟩ := exceptBind_ok_iff.mp h
  obtain ⟨iJ, h2, h⟩ := exceptBind_ok_iff.mp h
  obtain ⟨comps, h3, h⟩ := exceptBind_ok_iff.mp h
  obtain ⟨comp2, h4, h⟩ := exceptBind_ok_iff.mp h
  cases comp2 with
  | none =>
    have hg := oaiGlobal_ok h
    exact ⟨hg.1, hg.2.1⟩
  | some comp =>
    have h9 : (if comp.truthy then oaiCompBranch comp iJ else oaiGlobal data) =
        Except.ok r := h
    cases htr : comp.truthy with
    | true =>
      rw [htr, if_pos rfl] at h9
      exact oaiCompBranch_ok h9
    | false =>
      rw [htr, if_neg (by simp)] at h9
      have hg := oaiGlobal_ok h9
      exact ⟨hg.1, hg.2.1⟩

/-- A successful run of `check_openai_component` (fetch failure included)
has a canonical status and a nonempty message. -/
theorem check_openai_component_ok {key : String} {f : Except String Json}
    {r : String × String × List Json} (h : check_openai_component key f = Except.ok r) :
    canonicalStatus r.1 ∧ r.2.1 ≠ "" := by
  unfold check_openai_component at h
  cases f with
  | error e =>
    have hr : r = ("outage", "Error fetching/parsing OpenAI status: " ++ e, []) := by
      simpa using h.symm
    rw [hr]
    exact ⟨Or.inr (Or.inr rfl), append_ne_empty_left _ _ (by decide)⟩
  | ok data => exact check_openai_body_ok h

/-- Function `check_gcp_component` always returns a canonical status and a nonempty
message. -/
theorem check_gcp_component_shape (c : String) (now : Int)
    (f : Except String (List GcpIncident)) :
    canonicalStatus (check_gcp_component c now f).1
    ∧ (check_gcp_component c now f).2.1 ≠ "" := by
  unfold check_gcp_component
  cases hres : (do
      let data ← f
      gcpActive c now data : Except String (List String)) with
  | ok texts =>
    cases hem : texts.isEmpty with
    | true =>
      simp only [hem, Bool.not_true, Bool.false_eq_true, if_false]
      exact ⟨Or.inl rfl, append_ne_empty_left _ _ (by decide)⟩
    | false =>
      simp only [hem, Bool.not_false, if_true]
      exact ⟨Or.inr (Or.inr rfl), append_ne_empty_right _ _ (by decide)⟩
  | error e =>
    exact ⟨Or.inr (Or.inr rfl), append_ne_empty_left _ _ (by decide)⟩

/-- A successful per-service pipeline run yields a canonical status. -/
theorem runService_ok_canonical {w : World} {k : ServiceKind}
    {r : String × Json × List Json} (h : runService w k = Except.ok r) :
    canonicalStatus r.1 := by
  cases k with
  | gcp c =>
    have hr : r = ((check_gcp_component c w.now w.gcp).1,
        .str (check_gcp_component c w.now w.gcp).2.1,
        (check_gcp_component c w.now w.gcp).2.2.map .str) := by
      simpa [runService] using h.symm
    rw [hr]
    exact (check_gcp_component_shape c w.now w.gcp).1
  | openai key =>
    unfold runService at h
    obtain ⟨t, h1, h2⟩ := exceptBind_ok_iff.mp h
    have hr : r = (t.1, .str t.2.1, t.2.2) := by
      simpa [pure, Except.pure] using h2.symm
    rw [hr]
    exact (check_openai_component_ok h1).1
  | legacy api_url =>
    unfold runService at h
    obtain ⟨data, h1, h2⟩ := exceptBind_ok_iff.mp h
    exact parse_indicator_block_ok h2

/-- Every observation stored by the refresh loop has a canonical status. -/
theorem refreshLoop_canonical (w : World) (l : List Service) :
    ∀ p ∈ (refreshLoop w l).1, canonicalStatus p.2.status := by
  induction l with
  | nil =>
    intro p hp
    exact absurd hp (List.not_mem_nil p)
  | cons svc rest ih =>
    intro p hp
    unfold refreshLoop at hp
    cases hrun : runService w svc.kind with
    | error e =>
      rw [hrun] at hp
      exact absurd hp (List.not_mem_nil p)
    | ok r =>
      rw [hrun] at hp
      rcases List.mem_cons.mp hp with h | h
      · rw [h]
        exact runService_ok_canonical hrun
      · exact ih p h

/-- The banner reduction as a worst-of over canonical statuses. -/
theorem overall_banner_worst (statuses : List String)
    (h : ∀ s ∈ statuses, canonicalStatus s) :
    overall_banner statuses =
      if "outage" ∈ statuses then "outage"
      else if "degraded" ∈ statuses then "degraded"
      else "operational" := by
  unfold overall_banner
  by_cases ho : "outage" ∈ statuses
  · have hall : statuses.all (fun s => s = "operational") = false := by
      cases hb : statuses.all (fun s => s = "operational") with
      | false => rfl
      | true =>
        have h2 := List.all_eq_true.mp hb _ ho
        simp at h2
    have hany : statuses.any (fun s => s = "outage") = true :=
      List.any_eq_true.mpr ⟨_, ho, by simp⟩
    simp [hall, hany, ho]
  · by_cases hd : "degraded" ∈ statuses
    · have hall : statuses.all (fun s => s = "operational") = false := by
        cases hb : statuses.all (fun s => s = "operational") with
        | false => rfl
        | true =>
          have h2 := List.all_eq_true.mp hb _ hd
          simp at h2
      have hany : statuses.any (fun s => s = "outage") = false := by
        cases hb : statuses.any (fun s => s = "outage") with
        | false => rfl
        | true =>
          obtain ⟨x, hx, hxe⟩ := List.any_eq_true.mp hb
          simp at hxe
          subst hxe
          exact absurd hx ho
      simp [hall, hany, ho, hd]
    · have hall : statuses.all (fun s => s = "operational") = true := by
        apply List.all_eq_true.mpr
        intro x hx
        rcases h x hx with h1 | h1 | h1
        · simp [h1]
        · subst h1
          exact absurd hx hd
        · subst h1
          exact absurd hx ho
      simp [hall, ho, hd]

/-- C1: the banner derived from the statuses stored by a refresh cycle is
the worst-of reduction: `"outage"` when at least one stored observation is
an outage, else `"degraded"` when at least one is degraded, else
`"operational"`. -/
theorem spec_c1 (w : World) :
    overall_banner ((refresh_all_services w).1.map (fun p => p.2.status)) =
      if "outage" ∈ (refresh_all_services w).1.map (fun p => p.2.status) then "outage"
      else if "degraded" ∈ (refresh_all_services w).1.map (fun p => p.2.status) then
        "degraded"
      else "operational" := by
  apply overall_banner_worst
  intro s hs
  obtain ⟨p, hp, hps⟩ := List.mem_map.mp hs
  rw [← hps]
  exact refreshLoop_canonical w services p hp

/-- Witness for C1 at a concrete refresh environment. -/
theorem spec_c1_witness :
    overall_banner ((refresh_all_services wLegacyEmpty).1.map (fun p => p.2.status)) =
      if "outage" ∈ (refresh_all_services wLegacyEmpty).1.map (fun p => p.2.status) then
        "outage"
      else if "degraded" ∈
          (refresh_all_services wLegacyEmpty).1.map (fun p => p.2.status) then
        "degraded"
      else "operational" :=
  spec_c1 wLegacyEmpty

/-- C2 is violated by the code: when the legacy Netlify fetch raises a
transport error, the exception escapes the loop (the legacy branch has no
`try`), Netlify gets NO observation at all, and the later-configured
Cloudflare service is never processed — instead of the claimed Outage
observation for Netlify plus observations for every other service. -/
theorem spec_c2_bug :
    (refresh_all_services wNetlifyDown).1.map Prod.fst =
      ["GCP: Cloud Run", "GCP: Cloud Scheduler", "GCP: Firebase", "GCP: Cloud Storage",
       "GCP: Compute Engine", "GCP: IAM", "OpenAI: Chat", "OpenAI: Embedding"]
    ∧ (refresh_all_services wNetlifyDown).2 =
        some "ConnectionError: failed to establish a new connection" :=
  ⟨rfl, rfl⟩

/-- Counterexample for C8: in a refresh cycle where the Netlify summary
endpoint answers `{}` (no `status` block), the stored Netlify observation
has an EMPTY message — the generic Statuspage parser passes the raw
description through with default `""` and substitutes no non-empty
fallback. -/
theorem spec_c8_cex :
    (refresh_all_services wLegacyEmpty).1.lookup "Netlify" =
      some ⟨"operational", Json.str "", [], "https://www.netlifystatus.com/"⟩ := rfl

/-- C8 (amended): observations produced by the two bound checkers
(`check_gcp_component` and `check_openai_component`) always carry a
non-empty message, defaults included; the generic Statuspage parser,
however, stores the payload's description verbatim (default `""`), so its
observations can carry an empty message. -/
theorem spec_c8 :
    (∀ (c : String) (now : Int) (f : Except String (List GcpIncident)),
      (check_gcp_component c now f).2.1 ≠ "")
    ∧ (∀ (k : String) (f : Except String Json) (r : String × String × List Json),
      check_openai_component k f = Except.ok r → r.2.1 ≠ "") := by
  constructor
  · intro c now f
    exact (check_gcp_component_shape c now f).2
  · intro k f r h
    exact (check_openai_component_ok h).2

/-- Witness for C8 (amended) at concrete inputs. -/
theorem spec_c8_witness :
    (check_gcp_component "Cloud Run" 0 (Except.error "boom")).2.1 ≠ ""
    ∧ ("outage", "Error fetching/parsing OpenAI status: down", ([] : List Json)).2.1 ≠ "" :=
  ⟨spec_c8.1 "Cloud Run" 0 (Except.error "boom"),
   spec_c8.2 "chat" (Except.error "down") _ rfl⟩

/-- C9 is violated by the code: the legacy generic-Statuspage fetch of
`refresh_all_services` (used for Netlify and Cloudflare) passes NO timeout
argument to its HTTP GET, while both checker fetches pass `timeout=10`; an
unresponsive legacy provider can therefore stall the refresh cycle without
bound. -/
theorem spec_c9_bug :
    (⟨"Netlify", "https://www.netlifystatus.com/",
      .legacy "https://www.netlifystatus.com/api/v2/summary.json"⟩ : Service) ∈ services
    ∧ (serviceFetchCall
        (.legacy "https://www.netlifystatus.com/api/v2/summary.json")).timeout = none
    ∧ (serviceFetchCall (.gcp "Cloud Run")).timeout = some 10
    ∧ (serviceFetchCall (.openai "chat")).timeout = some 10 := by
  refine ⟨?_, rfl, rfl, rfl⟩
  simp [services]

/-- C10: every status value any parser path can return is one of the three
canonical strings `"operational"`, `"degraded"`, `"outage"` — for
`map_indicator` on any string, the inline mapping and `parse_indicator_block`
on any payload, `check_gcp_component` on any input including its error
branch, and `check_openai_component` on any input including its error
branch. -/
theorem spec_c10 :
    (∀ s : String, canonicalStatus (map_indicator s))
    ∧ (∀ j : Json, canonicalStatus (map_indicatorJ j))
    ∧ (∀ j : Json, canonicalStatus (indicator_block_status j))
    ∧ (∀ (data : Json) (r : String × Json × List Json),
        parse_indicator_block data = Except.ok r → canonicalStatus r.1)
    ∧ (∀ (c : String) (now : Int) (f : Except String (List GcpIncident)),
        canonicalStatus (check_gcp_component c now f).1)
    ∧ (∀ (k : String) (f : Except String Json) (r : String × String × List Json),
        check_openai_component k f = Except.ok r → canonicalStatus r.1) := by
  refine ⟨map_indicator_canonical, map_indicatorJ_canonical,
    indicator_block_status_canonical, ?_, ?_, ?_⟩
  · intro data r h
    exact parse_indicator_block_ok h
  · intro c now f
    exact (check_gcp_component_shape c now f).1
  · intro k f r h
    exact (check_openai_component_ok h).1

/-- Witness for C10 at concrete inputs. -/
theorem spec_c10_witness :
    canonicalStatus (("operational", Json.str "", ([] : List Json)).1)
    ∧ canonicalStatus (check_gcp_component "Cloud Run" 0 (Except.error "boom")).1 :=
  ⟨spec_c10.2.2.2.1 (.obj []) ("operational", Json.str "", []) rfl,
   spec_c10.2.2.2.2.1 "Cloud Run" 0 (Except.error "boom")⟩
